import Mathlib

/-!
Shallow embedding of the `logger` Go package (src/logger.go): a logging
facade that routes severity-leveled messages to syslog or to the terminal
depending on a debug flag, with a verbosity gate for the Info/Debug levels
and ANSI color formatting of terminal lines.

Modelling conventions:
* The package-level mutable variables `s`, `debug`, `verbose`, `color`
  become an explicit state record `St` threaded through the operations.
* The external `*syslog.Writer` is an oracle: a record `Writer` of response
  functions, one per severity method, each returning `Option GoError`
  (`none` models a `nil` Go error).
* Terminal output and syslog-collaborator calls are made observable as an
  `Effects` record of lists (the lines printed and the methods invoked).
* `time.Now().Format(time.RFC3339)` is nondeterministic; it is passed in as
  an abstract timestamp string `now`.
* A `nil` dereference of the handle (`s.Emerg` etc. with `s = nil`) is Go
  undefined behavior (panic); operations that may dereference the handle
  return `Option`, with `none` for that panic.
-/

namespace Logger

/-- A Go `error` value, as produced by `errors.New` or by the syslog
collaborator; `Option GoError` models a possibly-`nil` Go error. -/
inductive GoError
  | mk (msg : String)
deriving DecidableEq

/-- The external `*syslog.Writer` collaborator: one response function per
severity method, plus the result of `Close`. Field names follow the Go
method names (`Emerg`, `Alert`, `Crit`, `Err`, `Warning`, `Notice`,
`Info`, `Debug`, `Close`). -/
structure Writer where
  Emerg   : String → Option GoError
  Alert   : String → Option GoError
  Crit    : String → Option GoError
  Err     : String → Option GoError
  Warning : String → Option GoError
  Notice  : String → Option GoError
  Info    : String → Option GoError
  Debug   : String → Option GoError
  Close   : Option GoError

/-- The package-level mutable state of src/logger.go:
`var s *syslog.Writer; debug = false; verbose = false; color = true`. -/
structure St where
  s       : Option Writer
  debug   : Bool
  verbose : Bool
  color   : Bool

/-- One call on the system-log collaborator handle, tagged by which
severity method was invoked. -/
inductive SyslogCall
  | emerg   (message : String)
  | alert   (message : String)
  | crit    (message : String)
  | err     (message : String)
  | warning (message : String)
  | notice  (message : String)
  | info    (message : String)
  | debug   (message : String)
deriving DecidableEq

/-- The observable effects of one emit call: the lines printed to the
terminal (in order) and the calls made on the syslog handle (in order). -/
structure Effects where
  screen : List String
  calls  : List SyslogCall
deriving DecidableEq

/-- The process environment consumed by `Open`: the behavior of
`syslog.New` (keyed by the priority argument and the tag), the value of
the `TERM` environment variable, and the two isatty queries on stdout. -/
structure Env where
  syslogNew        : Nat → String → Except GoError Writer
  termEnv          : String
  isTerminalStdout : Bool
  isCygwinStdout   : Bool

-- Logging levels (src/logger.go lines 39-46)
def L_EMERGENCY : Nat := 0
def L_ALERT     : Nat := 1
def L_CRITICAL  : Nat := 2
def L_ERROR     : Nat := 3
def L_WARNING   : Nat := 4
def L_NOTICE    : Nat := 5
def L_INFO      : Nat := 6
def L_DEBUG     : Nat := 7

-- Message headers (src/logger.go lines 49-56), each padded to 9 characters
def M_EMERGENCY : String := "EMERGENCY"
def M_ALERT     : String := "ALERT    "
def M_CRITICAL  : String := "CRITICAL "
def M_ERROR     : String := "ERROR    "
def M_WARNING   : String := "WARNING  "
def M_NOTICE    : String := "NOTICE   "
def M_INFO      : String := "INFO     "
def M_DEBUG     : String := "DEBUG    "

-- Colors (src/logger.go lines 66-73); the byte arrays decoded to strings
def C_BLUE    : String := "\x1b[97;44m"
def C_CYAN    : String := "\x1b[97;46m"
def C_GREEN   : String := "\x1b[97;42m"
def C_WHITE   : String := "\x1b[90;47m"
def C_YELLOW  : String := "\x1b[97;43m"
def C_MAGENTA : String := "\x1b[97;45m"
def C_RED     : String := "\x1b[97;41m"
def C_RESET   : String := "\x1b[0m"

-- Go stdlib syslog priority constants used at the `syslog.New` call site:
-- syslog.LOG_WARNING = 4, syslog.LOG_DAEMON = 3<<3 = 24.
def LOG_WARNING : Nat := 4
def LOG_DAEMON  : Nat := 24

/-- The outcome of `Open`: the returned Go error (`none` = nil), the
updated package state, and the list of `syslog.New` connection attempts
(priority argument and tag) made on the collaborator. -/
structure OpenResult where
  res      : Option GoError
  st       : St
  attempts : List (Nat × String)

/-- Model of `Open(tag)` from src/logger.go lines 80-97: with a non-empty tag it
calls `syslog.New(syslog.LOG_WARNING|syslog.LOG_DAEMON, tag)`, returning
the error on failure; on success it disables color when `TERM` is "dumb"
or stdout is neither a terminal nor a Cygwin terminal, then returns nil.
With an empty tag it returns `errors.New("logger: tag cannot be empty")`
without touching the collaborator. -/
def Open (env : Env) (st : St) (tag : String) : OpenResult :=
  if tag ≠ "" then
    match env.syslogNew (LOG_WARNING ||| LOG_DAEMON) tag with
    | .error e =>
        { res := some e
          st := { st with s := none }
          attempts := [(LOG_WARNING ||| LOG_DAEMON, tag)] }
    | .ok w =>
        let st1 : St := { st with s := some w }
        let st2 : St :=
          if env.termEnv = "dumb" ∨ (!env.isTerminalStdout ∧ !env.isCygwinStdout) then
            { st1 with color := false }
          else st1
        { res := none, st := st2, attempts := [(LOG_WARNING ||| LOG_DAEMON, tag)] }
  else
    { res := some (GoError.mk "logger: tag cannot be empty"), st := st, attempts := [] }

/-- Model of `Close()` from src/logger.go lines 102-105: `err := s.Close(); return err`.
There is no nil guard, so a `none` handle yields `none` (undefined/panic). -/
def Close (st : St) : Option (Option GoError) :=
  match st.s with
  | none => none
  | some w => some w.Close

/-- Model of `PrintToScreen(level, message)` from src/logger.go lines 109-150,
returning the single line written to stdout (including the trailing
newline of the `Printf` format `"%s - %s%s%s %s\n"`). A level outside 0-7
leaves the color and header at their zero value `""` (Go switch with no
default). -/
def PrintToScreen (color : Bool) (now : String) (level : Nat) (message : String) : String :=
  let mc : String × String :=
    match level with
    | 0 => (C_RED, M_EMERGENCY)
    | 1 => (C_RED, M_ALERT)
    | 2 => (C_YELLOW, M_CRITICAL)
    | 3 => (C_YELLOW, M_ERROR)
    | 4 => (C_MAGENTA, M_WARNING)
    | 5 => (C_CYAN, M_NOTICE)
    | 6 => (C_WHITE, M_INFO)
    | 7 => (C_GREEN, M_DEBUG)
    | _ => ("", "")
  let mColor : String := if !color then "" else mc.1
  let mReset : String := if !color then "" else C_RESET
  now ++ " - " ++ mColor ++ mc.2 ++ mReset ++ " " ++ message ++ "\n"

/-- Model of `DisableColor()` from src/logger.go lines 153-155. -/
def DisableColor (st : St) : St := { st with color := false }

/-- Model of `SetDebug(b)` from src/logger.go lines 161-163. -/
def SetDebug (st : St) (b : Bool) : St := { st with debug := b }

/-- Model of `SetVerbose(b)` from src/logger.go lines 169-171. -/
def SetVerbose (st : St) (b : Bool) : St := { st with verbose := b }

/-- Model of `Emergency(message)` from src/logger.go lines 176-180: prints to the
screen unconditionally, then forwards to `s.Emerg` and returns its result.
`none` models the nil-handle panic. -/
def Emergency (st : St) (now message : String) : Option (Option GoError × Effects) :=
  let line := PrintToScreen st.color now L_EMERGENCY message
  match st.s with
  | none => none
  | some w => some (w.Emerg message, { screen := [line], calls := [.emerg message] })

/-- Model of `Alert(message)` from src/logger.go lines 184-192: in debug mode
prints to screen and returns nil; otherwise forwards to `s.Alert`. -/
def Alert (st : St) (now message : String) : Option (Option GoError × Effects) :=
  if st.debug = true then
    some (none, { screen := [PrintToScreen st.color now L_ALERT message], calls := [] })
  else
    match st.s with
    | none => none
    | some w => some (w.Alert message, { screen := [], calls := [.alert message] })

/-- Model of `Critical(message)` from src/logger.go lines 196-204. -/
def Critical (st : St) (now message : String) : Option (Option GoError × Effects) :=
  if st.debug = true then
    some (none, { screen := [PrintToScreen st.color now L_CRITICAL message], calls := [] })
  else
    match st.s with
    | none => none
    | some w => some (w.Crit message, { screen := [], calls := [.crit message] })

/-- Model of `Error(message)` from src/logger.go lines 208-216. -/
def Error (st : St) (now message : String) : Option (Option GoError × Effects) :=
  if st.debug = true then
    some (none, { screen := [PrintToScreen st.color now L_ERROR message], calls := [] })
  else
    match st.s with
    | none => none
    | some w => some (w.Err message, { screen := [], calls := [.err message] })

/-- Model of `Warning(message)` from src/logger.go lines 220-228. -/
def Warning (st : St) (now message : String) : Option (Option GoError × Effects) :=
  if st.debug = true then
    some (none, { screen := [PrintToScreen st.color now L_WARNING message], calls := [] })
  else
    match st.s with
    | none => none
    | some w => some (w.Warning message, { screen := [], calls := [.warning message] })

/-- Model of `Notice(message)` from src/logger.go lines 232-240. -/
def Notice (st : St) (now message : String) : Option (Option GoError × Effects) :=
  if st.debug = true then
    some (none, { screen := [PrintToScreen st.color now L_NOTICE message], calls := [] })
  else
    match st.s with
    | none => none
    | some w => some (w.Notice message, { screen := [], calls := [.notice message] })

/-- Model of `Info(message)` from src/logger.go lines 245-256: gated on verbose
mode; when verbose, same debug-mode branch as the other levels; when not
verbose, returns nil with no output. -/
def Info (st : St) (now message : String) : Option (Option GoError × Effects) :=
  if st.verbose = true then
    if st.debug = true then
      some (none, { screen := [PrintToScreen st.color now L_INFO message], calls := [] })
    else
      match st.s with
      | none => none
      | some w => some (w.Info message, { screen := [], calls := [.info message] })
  else
    some (none, { screen := [], calls := [] })

/-- Model of `Debug(message)` from src/logger.go lines 261-272: gated on verbose
mode; when verbose, same debug-mode branch as the other levels; when not
verbose, returns nil with no output. -/
def Debug (st : St) (now message : String) : Option (Option GoError × Effects) :=
  if st.verbose = true then
    if st.debug = true then
      some (none, { screen := [PrintToScreen st.color now L_DEBUG message], calls := [] })
    else
      match st.s with
      | none => none
      | some w => some (w.Debug message, { screen := [], calls := [.debug message] })
  else
    some (none, { screen := [], calls := [] })

/-- One invocation of a public operation of the package. -/
inductive Op
  | openOp (tag : String)
  | closeOp
  | setDebugOp (b : Bool)
  | setVerboseOp (b : Bool)
  | disableColorOp
  | emergencyOp (m : String)
  | alertOp (m : String)
  | criticalOp (m : String)
  | errorOp (m : String)
  | warningOp (m : String)
  | noticeOp (m : String)
  | infoOp (m : String)
  | debugOp (m : String)

/-- The package state after one public operation. `Open`, `SetDebug`,
`SetVerbose` and `DisableColor` are the only operations that assign any
package-level variable in src/logger.go; `Close` and the eight emit
functions write none of them, so they leave the state unchanged. -/
def applyOp (env : Env) (st : St) : Op → St
  | .openOp tag => (Open env st tag).st
  | .closeOp => st
  | .setDebugOp b => SetDebug st b
  | .setVerboseOp b => SetVerbose st b
  | .disableColorOp => DisableColor st
  | .emergencyOp _ => st
  | .alertOp _ => st
  | .criticalOp _ => st
  | .errorOp _ => st
  | .warningOp _ => st
  | .noticeOp _ => st
  | .infoOp _ => st
  | .debugOp _ => st

-- Spec-side tables for the refinement claim about the terminal line
-- format (spec sections 4.1 printToTerminal and 6, color mapping table).

/-- The spec's fixed color mapping table: Emergency and Alert red,
Critical and Error yellow, Warning magenta, Notice cyan, Info white,
Debug green. -/
def specColor : Nat → String
  | 0 => C_RED
  | 1 => C_RED
  | 2 => C_YELLOW
  | 3 => C_YELLOW
  | 4 => C_MAGENTA
  | 5 => C_CYAN
  | 6 => C_WHITE
  | 7 => C_GREEN
  | _ => ""

/-- The display label of each severity, per the spec's data model. -/
def specLabel : Nat → String
  | 0 => M_EMERGENCY
  | 1 => M_ALERT
  | 2 => M_CRITICAL
  | 3 => M_ERROR
  | 4 => M_WARNING
  | 5 => M_NOTICE
  | 6 => M_INFO
  | 7 => M_DEBUG
  | _ => ""

-- Concrete instances used by the witness theorems.

/-- A concrete collaborator handle on which every call succeeds. -/
def wOk : Writer :=
  { Emerg := fun _ => none
    Alert := fun _ => none
    Crit := fun _ => none
    Err := fun _ => none
    Warning := fun _ => none
    Notice := fun _ => none
    Info := fun _ => none
    Debug := fun _ => none
    Close := none }

/-- A concrete environment in which `syslog.New` succeeds and stdout is an
interactive terminal. -/
def envOk : Env :=
  { syslogNew := fun _ _ => .ok wOk
    termEnv := "xterm"
    isTerminalStdout := true
    isCygwinStdout := false }

/-- A concrete environment in which `syslog.New` fails. -/
def envBad : Env :=
  { syslogNew := fun _ _ => .error (GoError.mk "Unix syslog delivery error")
    termEnv := "xterm"
    isTerminalStdout := true
    isCygwinStdout := false }

/-- A concrete environment in which `syslog.New` succeeds and `TERM` is
"dumb". -/
def envDumb : Env :=
  { syslogNew := fun _ _ => .ok wOk
    termEnv := "dumb"
    isTerminalStdout := true
    isCygwinStdout := false }

/-- A concrete opened state (handle present, all flags at their defaults
except color, which is on by default). -/
def stOpen : St := { s := some wOk, debug := false, verbose := false, color := true }

/-- A concrete opened state with debug mode on. -/
def stDbg : St := { s := some wOk, debug := true, verbose := false, color := true }

/-- A concrete opened state with verbose mode on, debug off. -/
def stVerb : St := { s := some wOk, debug := false, verbose := true, color := true }

/-- A concrete state with no handle (before `Open` / after a failed one). -/
def stNil : St := { s := none, debug := false, verbose := false, color := true }

/-- C1: for every message and every setting of the debug and verbose
flags, `Emergency(message)` prints exactly one terminal line and forwards
the message to the collaborator's emergency-severity method `Emerg`,
returning exactly that forward call's result. -/
theorem emergency_dual_sink (st : St) (w : Writer) (now message : String)
    (h : st.s = some w) :
    Emergency st now message =
      some (w.Emerg message,
        { screen := [PrintToScreen st.color now L_EMERGENCY message]
          calls := [SyslogCall.emerg message] }) := by
  simp [Emergency, h]

/-- Witness for C1 at a concrete opened state in debug mode. -/
theorem emergency_dual_sink_witness :
    Emergency stDbg "2024-01-01T00:00:00Z" "disk full" =
      some (wOk.Emerg "disk full",
        { screen := [PrintToScreen stDbg.color "2024-01-01T00:00:00Z" L_EMERGENCY "disk full"]
          calls := [SyslogCall.emerg "disk full"] }) :=
  emergency_dual_sink stDbg wOk "2024-01-01T00:00:00Z" "disk full" rfl

/-- C2: for every message, each of Alert, Critical, Error, Warning,
Notice in debug mode returns nil, prints exactly one terminal line, and
makes no call on the system-log collaborator handle. -/
theorem debug_mode_redirect (st : St) (now m : String) (h : st.debug = true) :
    Alert st now m =
      some (none, { screen := [PrintToScreen st.color now L_ALERT m], calls := [] }) ∧
    Critical st now m =
      some (none, { screen := [PrintToScreen st.color now L_CRITICAL m], calls := [] }) ∧
    Error st now m =
      some (none, { screen := [PrintToScreen st.color now L_ERROR m], calls := [] }) ∧
    Warning st now m =
      some (none, { screen := [PrintToScreen st.color now L_WARNING m], calls := [] }) ∧
    Notice st now m =
      some (none, { screen := [PrintToScreen st.color now L_NOTICE m], calls := [] }) := by
  refine ⟨?_, ?_, ?_, ?_, ?_⟩ <;>
    simp [Alert, Critical, Error, Warning, Notice, h]

/-- Witness for C2 at a concrete debug-mode state. -/
theorem debug_mode_redirect_witness :
    Alert stDbg "t" "m" =
      some (none, { screen := [PrintToScreen stDbg.color "t" L_ALERT "m"], calls := [] }) ∧
    Critical stDbg "t" "m" =
      some (none, { screen := [PrintToScreen stDbg.color "t" L_CRITICAL "m"], calls := [] }) ∧
    Error stDbg "t" "m" =
      some (none, { screen := [PrintToScreen stDbg.color "t" L_ERROR "m"], calls := [] }) ∧
    Warning stDbg "t" "m" =
      some (none, { screen := [PrintToScreen stDbg.color "t" L_WARNING "m"], calls := [] }) ∧
    Notice stDbg "t" "m" =
      some (none, { screen := [PrintToScreen stDbg.color "t" L_NOTICE "m"], calls := [] }) :=
  debug_mode_redirect stDbg "t" "m" rfl

/-- C3: for every message, each of Alert, Critical, Error, Warning,
Notice with debug mode off forwards the message to the collaborator's
method of the matching severity, prints nothing, and returns exactly that
call's result. -/
theorem forward_matching_severity (st : St) (w : Writer) (now m : String)
    (hd : st.debug = false) (hs : st.s = some w) :
    Alert st now m = some (w.Alert m, { screen := [], calls := [SyslogCall.alert m] }) ∧
    Critical st now m = some (w.Crit m, { screen := [], calls := [SyslogCall.crit m] }) ∧
    Error st now m = some (w.Err m, { screen := [], calls := [SyslogCall.err m] }) ∧
    Warning st now m = some (w.Warning m, { screen := [], calls := [SyslogCall.warning m] }) ∧
    Notice st now m = some (w.Notice m, { screen := [], calls := [SyslogCall.notice m] }) := by
  refine ⟨?_, ?_, ?_, ?_, ?_⟩ <;>
    simp [Alert, Critical, Error, Warning, Notice, hd, hs]

/-- Witness for C3 at a concrete opened non-debug state. -/
theorem forward_matching_severity_witness :
    Alert stOpen "t" "m" = some (wOk.Alert "m", { screen := [], calls := [SyslogCall.alert "m"] }) ∧
    Critical stOpen "t" "m" = some (wOk.Crit "m", { screen := [], calls := [SyslogCall.crit "m"] }) ∧
    Error stOpen "t" "m" = some (wOk.Err "m", { screen := [], calls := [SyslogCall.err "m"] }) ∧
    Warning stOpen "t" "m" = some (wOk.Warning "m", { screen := [], calls := [SyslogCall.warning "m"] }) ∧
    Notice stOpen "t" "m" = some (wOk.Notice "m", { screen := [], calls := [SyslogCall.notice "m"] }) :=
  forward_matching_severity stOpen wOk "t" "m" rfl rfl

/-- C4: Info and Debug, with verbose mode off, print nothing, call the
collaborator on nothing, and return nil, whatever debug mode is; with
verbose mode on they follow the same debug-mode sink selection as
ordinals 1-5 (terminal line and nil in debug mode, otherwise forward at
info/debug severity returning that call's result). -/
theorem verbosity_gate (st : St) (w : Writer) (now m : String) :
    (st.verbose = false →
      Info st now m = some (none, { screen := [], calls := [] }) ∧
      Debug st now m = some (none, { screen := [], calls := [] })) ∧
    (st.verbose = true → st.debug = true →
      Info st now m =
        some (none, { screen := [PrintToScreen st.color now L_INFO m], calls := [] }) ∧
      Debug st now m =
        some (none, { screen := [PrintToScreen st.color now L_DEBUG m], calls := [] })) ∧
    (st.verbose = true → st.debug = false → st.s = some w →
      Info st now m = some (w.Info m, { screen := [], calls := [SyslogCall.info m] }) ∧
      Debug st now m = some (w.Debug m, { screen := [], calls := [SyslogCall.debug m] })) := by
  refine ⟨fun hv => ⟨?_, ?_⟩, fun hv hd => ⟨?_, ?_⟩, fun hv hd hs => ⟨?_, ?_⟩⟩ <;>
    simp_all [Info, Debug]

/-- Witness for C4 at a concrete verbose non-debug opened state. -/
theorem verbosity_gate_witness :
    Info stVerb "t" "m" = some (wOk.Info "m", { screen := [], calls := [SyslogCall.info "m"] }) ∧
    Debug stVerb "t" "m" = some (wOk.Debug "m", { screen := [], calls := [SyslogCall.debug "m"] }) :=
  (verbosity_gate stVerb wOk "t" "m").2.2 rfl rfl rfl

/-- C5: `Open` with an empty tag returns the configuration error from
`errors.New` and never calls the collaborator's `syslog.New`; with a
non-empty tag it makes exactly one connection attempt at the fixed
pairing `LOG_WARNING ||| LOG_DAEMON`, propagates the collaborator's
connect error on failure, and returns nil on success. -/
theorem open_contract (env : Env) (st : St) (tag : String) (htag : tag ≠ "") :
    (Open env st "").res = some (GoError.mk "logger: tag cannot be empty") ∧
    (Open env st "").attempts = [] ∧
    (Open env st tag).attempts = [(LOG_WARNING ||| LOG_DAEMON, tag)] ∧
    (∀ e, env.syslogNew (LOG_WARNING ||| LOG_DAEMON) tag = Except.error e →
      (Open env st tag).res = some e) ∧
    (∀ w, env.syslogNew (LOG_WARNING ||| LOG_DAEMON) tag = Except.ok w →
      (Open env st tag).res = none) := by
  refine ⟨by simp [Open], by simp [Open], ?_, fun e he => ?_, fun w hw => ?_⟩
  · cases henv : env.syslogNew (LOG_WARNING ||| LOG_DAEMON) tag <;>
      simp [Open, htag, henv]
  · simp [Open, htag, he]
  · simp [Open, htag, hw]

/-- Witness for C5 in a concrete environment whose collaborator connect
fails. -/
theorem open_contract_witness :
    (Open envBad stNil "svc").attempts = [(LOG_WARNING ||| LOG_DAEMON, "svc")] ∧
    (Open envBad stNil "svc").res = some (GoError.mk "Unix syslog delivery error") := by
  have h := open_contract envBad stNil "svc" (by decide)
  exact ⟨h.2.2.1, h.2.2.2.1 (GoError.mk "Unix syslog delivery error") rfl⟩

/-- C6: for every level 0-7, the terminal line is exactly the RFC3339
timestamp, " - ", the color escape of the spec's fixed mapping (empty
when color is off), the 9-character padded label, the shared reset
sequence (empty when color is off), a space, the message, and a newline;
and every label has exactly 9 characters. -/
theorem terminal_line_format (color : Bool) (now : String) (level : Nat) (m : String)
    (h : level < 8) :
    PrintToScreen color now level m =
      now ++ " - " ++ (if color then specColor level else "") ++ specLabel level ++
        (if color then C_RESET else "") ++ " " ++ m ++ "\n" ∧
    (specLabel level).length = 9 := by
  interval_cases level <;>
    exact ⟨by cases color <;> simp [PrintToScreen, specColor, specLabel], by decide⟩

/-- Witness for C6: the spec's own example, "disk full" at Warning with
color off. -/
theorem terminal_line_format_witness :
    PrintToScreen false "2024-01-01T00:00:00Z" 4 "disk full" =
      "2024-01-01T00:00:00Z - WARNING   disk full\n" ∧
    (specLabel 4).length = 9 := by
  have h := terminal_line_format false "2024-01-01T00:00:00Z" 4 "disk full" (by decide)
  exact ⟨h.1.trans (by decide), h.2⟩

/-- C7: when `Open` succeeds, the color flag afterwards is false when
`TERM` is "dumb" or stdout is neither an interactive terminal nor a
Cygwin terminal, and is otherwise left at its prior value; in
particular `Open` never turns it from false to true. -/
theorem open_color_detection (env : Env) (st : St) (tag : String)
    (h : (Open env st tag).res = none) :
    (Open env st tag).st.color =
      if env.termEnv = "dumb" ∨ (!env.isTerminalStdout ∧ !env.isCygwinStdout) then
        false
      else st.color := by
  by_cases ht : tag = ""
  · simp [Open, ht] at h
  · cases henv : env.syslogNew (LOG_WARNING ||| LOG_DAEMON) tag with
    | error e => simp [Open, ht, henv] at h
    | ok w =>
        simp only [Open, ht, ne_eq, not_false_iff, if_true, henv]
        split <;> simp_all

/-- Witness for C7: a successful `Open` under `TERM=dumb` turns color
off. -/
theorem open_color_detection_witness :
    (Open envDumb stOpen "svc").st.color =
      if envDumb.termEnv = "dumb" ∨ (!envDumb.isTerminalStdout ∧ !envDumb.isCygwinStdout) then
        false
      else stOpen.color :=
  open_color_detection envDumb stOpen "svc" rfl

/-- C8: the color flag is monotone non-increasing across every public
operation: if it is false before the operation it is still false after
it, whatever the operation and environment. -/
theorem color_monotone (env : Env) (st : St) (op : Op) (h : st.color = false) :
    (applyOp env st op).color = false := by
  cases op with
  | openOp tag =>
      by_cases ht : tag = ""
      · simp [applyOp, Open, ht, h]
      · cases henv : env.syslogNew (LOG_WARNING ||| LOG_DAEMON) tag with
        | error e => simp [applyOp, Open, ht, henv, h]
        | ok w =>
            simp only [applyOp, Open, ht, ne_eq, not_false_iff, if_true, henv]
            split <;> simp [h]
  | setDebugOp b => simpa [applyOp, SetDebug] using h
  | setVerboseOp b => simpa [applyOp, SetVerbose] using h
  | disableColorOp => simp [applyOp, DisableColor]
  | closeOp => simpa [applyOp] using h
  | emergencyOp m => simpa [applyOp] using h
  | alertOp m => simpa [applyOp] using h
  | criticalOp m => simpa [applyOp] using h
  | errorOp m => simpa [applyOp] using h
  | warningOp m => simpa [applyOp] using h
  | noticeOp m => simpa [applyOp] using h
  | infoOp m => simpa [applyOp] using h
  | debugOp m => simpa [applyOp] using h

/-- Witness for C8: a successful `Open` keeps an already-false color flag
false. -/
theorem color_monotone_witness :
    (applyOp envOk { s := none, debug := false, verbose := false, color := false }
      (Op.openOp "svc")).color = false :=
  color_monotone envOk { s := none, debug := false, verbose := false, color := false }
    (Op.openOp "svc") rfl

/-- C9: with a present handle, every operation that dereferences it
(`Close`, `Emergency`, and each of the seven lower severities on its
forwarding path) is defined, so the nil-handle branch of the embedding
is unreachable; with an absent handle, those same dereferencing paths
are undefined, since the code has no nil guard. -/
theorem handle_deref_safe (st st₂ : St) (w : Writer) (now m : String)
    (h : st.s = some w) (h₂ : st₂.s = none) :
    (Close st).isSome ∧ (Emergency st now m).isSome ∧
    (Alert st now m).isSome ∧ (Critical st now m).isSome ∧ (Error st now m).isSome ∧
    (Warning st now m).isSome ∧ (Notice st now m).isSome ∧
    (Info st now m).isSome ∧ (Debug st now m).isSome ∧
    Close st₂ = none ∧ Emergency st₂ now m = none ∧
    (st₂.debug = false →
      Alert st₂ now m = none ∧ Critical st₂ now m = none ∧ Error st₂ now m = none ∧
      Warning st₂ now m = none ∧ Notice st₂ now m = none ∧
      (st₂.verbose = true → Info st₂ now m = none ∧ Debug st₂ now m = none)) := by
  refine ⟨by simp [Close, h], by simp [Emergency, h], ?_, ?_, ?_, ?_, ?_, ?_, ?_,
    by simp [Close, h₂], by simp [Emergency, h₂], fun hd => ?_⟩
  · cases hdb : st.debug <;> simp [Alert, h, hdb]
  · cases hdb : st.debug <;> simp [Critical, h, hdb]
  · cases hdb : st.debug <;> simp [Error, h, hdb]
  · cases hdb : st.debug <;> simp [Warning, h, hdb]
  · cases hdb : st.debug <;> simp [Notice, h, hdb]
  · cases hv : st.verbose <;> cases hdb : st.debug <;> simp [Info, h, hv, hdb]
  · cases hv : st.verbose <;> cases hdb : st.debug <;> simp [Debug, h, hv, hdb]
  · exact ⟨by simp [Alert, h₂, hd], by simp [Critical, h₂, hd], by simp [Error, h₂, hd],
      by simp [Warning, h₂, hd], by simp [Notice, h₂, hd],
      fun hv => ⟨by simp [Info, h₂, hd, hv], by simp [Debug, h₂, hd, hv]⟩⟩

/-- Witness for C9 with a concrete opened state and a concrete unopened
state. -/
theorem handle_deref_safe_witness :
    (Close stOpen).isSome ∧ (Emergency stOpen "t" "m").isSome ∧
    (Alert stOpen "t" "m").isSome ∧ (Critical stOpen "t" "m").isSome ∧
    (Error stOpen "t" "m").isSome ∧
    (Warning stOpen "t" "m").isSome ∧ (Notice stOpen "t" "m").isSome ∧
    (Info stOpen "t" "m").isSome ∧ (Debug stOpen "t" "m").isSome ∧
    Close stNil = none ∧ Emergency stNil "t" "m" = none ∧
    (stNil.debug = false →
      Alert stNil "t" "m" = none ∧ Critical stNil "t" "m" = none ∧
      Error stNil "t" "m" = none ∧
      Warning stNil "t" "m" = none ∧ Notice stNil "t" "m" = none ∧
      (stNil.verbose = true → Info stNil "t" "m" = none ∧ Debug stNil "t" "m" = none)) :=
  handle_deref_safe stOpen stNil wOk "t" "m" rfl rfl

/-- C10: whenever `Open` returns an error, whether for an empty tag or a
failed collaborator connect, the color flag keeps the value it had
before the call; auto-detection runs only after a successful
connection. -/
theorem open_failure_color (env : Env) (st : St) (tag : String)
    (h : (Open env st tag).res ≠ none) :
    (Open env st tag).st.color = st.color := by
  by_cases ht : tag = ""
  · simp [Open, ht]
  · cases henv : env.syslogNew (LOG_WARNING ||| LOG_DAEMON) tag with
    | error e => simp [Open, ht, henv]
    | ok w => simp [Open, ht, henv] at h

/-- Witness for C10: a failed connect leaves the color flag unchanged. -/
theorem open_failure_color_witness :
    (Open envBad stOpen "svc").st.color = stOpen.color :=
  open_failure_color envBad stOpen "svc" (by decide)

end Logger
